import Mathlib

/-!
# Verification of the XTK `X.renderer` core (src/xtk/visualization/renderer.js)

A shallow embedding of the renderer in Lean 4.  JavaScript objects become
records, the insertion-ordered `goog.structs.Map` becomes an association
list, thrown `X.exception`s become `Except` errors that carry the receiver
state at the throw point (JS exceptions leave partial mutations visible),
and GPU calls become an explicit effect trace.  External collaborators that
are not part of this repository's source (the Closure matrix utilities,
`X.color`/`X.colors`/`X.points` containers, `X.buffer`, the DOM and the
WebGL context) are modelled at their interface boundary.
-/

namespace XRenderer

/-- An RGBA color value.  Modelled from the spec: the `X.color` container
(not under src/) carries 4 components per color; `X.color(1, 1, 1)` denotes
opaque white (alpha 1). -/
structure XColor where
  r : ℚ
  g : ℚ
  b : ℚ
  a : ℚ
deriving DecidableEq, Repr

/-- The default object color built by `addObject` line 517:
`new X.color(1, 1, 1)`.  Modelled from the spec: "default opaque white". -/
def defaultColor : XColor := ⟨1, 1, 1, 1⟩

/-- A 3-D point.  Modelled from the spec: `points()` is "a flattenable
ordered sequence of 3-vectors with a `count()`". -/
structure Vec3 where
  x : ℚ
  y : ℚ
  z : ℚ
deriving DecidableEq, Repr

/-- `object.points().flatten()`: 3 components per point, in order. -/
def flattenPoints (ps : List Vec3) : List ℚ :=
  (ps.map fun p => [p.x, p.y, p.z]).flatten

/-- `colors.flatten()`: 4 components per color, in order. -/
def flattenColors (cs : List XColor) : List ℚ :=
  (cs.map fun c => [c.r, c.g, c.b, c.a]).flatten

/-- A scene object (`X.object` interface, spec section 6): `points()`,
`colors()` and an optional single `color()`. -/
structure XObject where
  color : Option XColor
  points : List Vec3
  colors : List XColor
deriving DecidableEq, Repr

/-- `X.buffer` (spec section 2, "GPU Resource Handle"): a buffer identifier
plus element count and components-per-element.  Pure data. -/
structure XBuffer where
  glBuffer : ℕ
  itemCount : ℕ
  itemSize : ℕ
deriving DecidableEq, Repr

/-- The WebGL context, modelled at its interface boundary: the only state
the renderer observes from it is the supply of fresh buffer identifiers. -/
structure GLContext where
  nextBufferId : ℕ
deriving DecidableEq, Repr

/-- `gl.createBuffer()`: returns a fresh buffer identifier. -/
def GLContext.createBuffer (gl : GLContext) : ℕ × GLContext :=
  (gl.nextBufferId, ⟨gl.nextBufferId + 1⟩)

/-- A 4×4 matrix over the rationals (`goog.math.Matrix` of size 4). -/
def Matrix4 : Type := Fin 4 → Fin 4 → ℚ

/-- The 4×4 identity matrix (`goog.math.Matrix.createIdentityMatrix(4)`). -/
def identity4 : Matrix4 := fun i j => if i = j then 1 else 0

/-- Matrix product of two 4×4 matrices.  Modelled from the spec: `multiply`
composes the receiver with the argument (the composed transform). -/
def matMul (A B : Matrix4) : Matrix4 := fun i k =>
  A i 0 * B 0 k + A i 1 * B 1 k + A i 2 * B 2 k + A i 3 * B 3 k

/-- Row-major flattening of a 4×4 matrix (`matrix.flatten()`, 16 floats). -/
def flatten4 (M : Matrix4) : List ℚ :=
  [M 0 0, M 0 1, M 0 2, M 0 3,
   M 1 0, M 1 1, M 1 2, M 1 3,
   M 2 0, M 2 1, M 2 2, M 2 3,
   M 3 0, M 3 1, M 3 2, M 3 3]

/-- The camera collaborator (spec section 6): exposes `getView()` and
`getPerspective()`. -/
structure Camera where
  view : Matrix4
  perspective : Matrix4

/-- `camera.getView()`. -/
def Camera.getView (c : Camera) : Matrix4 := c.view

/-- `camera.getPerspective()`. -/
def Camera.getPerspective (c : Camera) : Matrix4 := c.perspective

/-- The drawable canvas surface, holding the properties the renderer
assigns to it (creation at init, live updates by the setters). -/
structure Canvas where
  styleBackgroundColor : String
  width : ℚ
  height : ℚ
  styleWidth : Option ℚ
  styleHeight : Option ℚ
deriving DecidableEq, Repr

/-- `goog.structs.Map` with integer keys: an insertion-ordered association
list.  `set` on a fresh key appends, preserving insertion order. -/
structure GMap (α : Type) where
  entries : List (ℤ × α)
deriving DecidableEq, Repr

/-- `map.containsKey(k)`. -/
def GMap.containsKey (m : GMap α) (k : ℤ) : Bool :=
  m.entries.any fun e => e.1 == k

/-- `map.get(k)`: the value stored under `k`, if any. -/
def GMap.get (m : GMap α) (k : ℤ) : Option α :=
  (m.entries.find? fun e => e.1 == k).map fun e => e.2

/-- `map.set(k, v)`: replace in place if the key exists, else append. -/
def GMap.set (m : GMap α) (k : ℤ) (v : α) : GMap α :=
  if m.containsKey k then
    ⟨m.entries.map fun e => if e.1 == k then (k, v) else e⟩
  else
    ⟨m.entries ++ [(k, v)]⟩

/-- `map.getKeyIterator()`: the keys in insertion order. -/
def GMap.getKeys (m : GMap α) : List ℤ :=
  m.entries.map fun e => e.1

/-- The single `X.exception` class, discriminated by its message. -/
inductive JsError where
  | stopIteration
  | typeError
deriving DecidableEq, Repr

/-- The exceptions the renderer throws, one constructor per distinct
`throw new X.exception(...)` site, plus `rethrown` for a non-StopIteration
error re-raised by `render`'s catch block. -/
inductive XException where
  | couldNotFindBody
  | couldNotFindContainer
  | glContextException
  | webGLNotSupported
  | glConfigureException
  | notInitialized
  | couldNotAddShaders
  | shaderCompilationFailed
  | couldNotCreateShaderProgram
  | illegalObject
  | couldNotGetUniqueId
  | rethrown (e : JsError)
deriving DecidableEq, Repr

/-- The observable side effects (DOM and WebGL calls) an operation issues,
in order. -/
inductive Effect where
  | createCanvasEl
  | appendChild
  | viewportSet (x y w h : ℚ)
  | clearColorSet (r g b a : ℚ)
  | enableDepthTest
  | depthFuncLEqual
  | clearBuffers
  | newCamera
  | createGLBuffer (idB : ℕ)
  | bindGLBuffer (idB : ℕ)
  | bufferData (data : List ℚ)
  | getUniformLoc (prog : Option ℕ) (uname : String)
  | uniformMatrix4 (uname : String) (data : List ℚ)
  | vertexAttribPointer (attr : Option ℤ) (size : ℕ)
  | drawTriangleStrip (count : ℕ)
  | createShaderEff
  | compileShaderEff
  | createProgramEff
  | linkProgramEff
  | useProgramEff
  | enableVertexAttrib (attr : ℤ)
deriving DecidableEq, Repr

/-- The renderer state: one field per `this._*` attribute assigned by the
constructor (lines 31-145), plus the three fields `addShaders` assigns
later (`_shaderProgram`, `_vertexPositionAttribute`,
`_vertexColorAttribute`, `undefined` before that call, hence `Option`). -/
structure Renderer where
  dimension : ℤ := -1
  width : ℚ
  height : ℚ
  backgroundColor : String := "#000000"
  container : Option ℕ := none
  canvas : Option Canvas := none
  gl : Option GLContext := none
  camera : Option Camera := none
  objects : GMap XObject := ⟨[]⟩
  vertexBuffers : GMap XBuffer := ⟨[]⟩
  colorBuffers : GMap XBuffer := ⟨[]⟩
  id : ℤ := -1
  shaderProgram : Option ℕ := none
  vertexPositionAttribute : Option ℤ := none
  vertexColorAttribute : Option ℤ := none

/-- `new X.renderer(width, height)` (lines 31-145). -/
def Renderer.new (w h : ℚ) : Renderer := { width := w, height := h }

/-- `setWidth` (lines 180-191): update the live canvas style if present,
then store the value. -/
def Renderer.setWidth (r : Renderer) (w : ℚ) : Renderer :=
  match r.canvas with
  | some cv => { r with canvas := some { cv with styleWidth := some w }, width := w }
  | none => { r with width := w }

/-- `setHeight` (lines 211-222). -/
def Renderer.setHeight (r : Renderer) (h : ℚ) : Renderer :=
  match r.canvas with
  | some cv => { r with canvas := some { cv with styleHeight := some h }, height := h }
  | none => { r with height := h }

/-- `setBackgroundColor` (lines 242-254). -/
def Renderer.setBackgroundColor (r : Renderer) (bg : String) : Renderer :=
  match r.canvas with
  | some cv =>
      { r with canvas := some { cv with styleBackgroundColor := bg }, backgroundColor := bg }
  | none => { r with backgroundColor := bg }

/-- `getContainer` (lines 263-285): lazily resolve to `document.body`
(supplied by the host environment), mutating `_container`; throw if the
body is absent. -/
def Renderer.getContainer (r : Renderer) (body? : Option ℕ) :
    Except (XException × Renderer) (ℕ × Renderer) :=
  match r.container with
  | some c => .ok (c, r)
  | none =>
      match body? with
      | none => .error (.couldNotFindBody, r)
      | some b => .ok (b, { r with container := some b })

/-- `setContainer` (lines 294-305): throw on a null container. -/
def Renderer.setContainer (r : Renderer) (c : Option ℕ) :
    Except (XException × Renderer) Renderer :=
  match c with
  | none => .error (.couldNotFindContainer, r)
  | some c => .ok { r with container := some c }

/-- `setContainerById` (lines 313-321): look the element up in the host
environment, then delegate to `setContainer`. -/
def Renderer.setContainerById (r : Renderer) (lookup : Option ℕ) :
    Except (XException × Renderer) Renderer :=
  r.setContainer lookup

/-- The host-environment inputs `init` consumes: the document body, the
outcome of `canvas.getContext('experimental-webgl')` (it may throw, return
null, or return a context), whether configuring the context throws, and
the camera `new X.camera(this)` yields. -/
structure InitEnv where
  body : Option ℕ := some 0
  contextThrows : Bool := false
  contextResult : Option GLContext := some ⟨0⟩
  configureOk : Bool := true
  freshCamera : Camera := ⟨identity4, identity4⟩

/-- The tail of `init` after the container has been resolved (`r` already
carries any `_container` update made by `getContainer`). -/
def Renderer.initPhase2 (r : Renderer) (canvas : Canvas) (env : InitEnv) :
    List Effect × Except (XException × Renderer) Renderer :=
  let effs := [Effect.createCanvasEl, Effect.appendChild]
  if env.contextThrows then
    (effs, .error (.glContextException, r))
  else
    match env.contextResult with
    | none => (effs, .error (.webGLNotSupported, r))
    | some gl =>
        if env.configureOk then
          (effs ++
            [Effect.viewportSet 0 0 r.width r.height,
             Effect.clearColorSet 0 0 0 0,
             Effect.enableDepthTest,
             Effect.depthFuncLEqual,
             Effect.clearBuffers,
             Effect.newCamera],
           .ok { r with
                   canvas := some canvas,
                   gl := some gl,
                   camera := some env.freshCamera })
        else
          (effs, .error (.glConfigureException, r))

/-- `init` (lines 333-424): return immediately if the canvas exists;
otherwise create the canvas, resolve the container, get and configure the
GL context, build the camera, and only then publish `_canvas`, `_gl` and
`_camera` together. -/
def Renderer.init (r : Renderer) (env : InitEnv) :
    List Effect × Except (XException × Renderer) Renderer :=
  match r.canvas with
  | some _ => ([], .ok r)
  | none =>
      let canvas : Canvas :=
        { styleBackgroundColor := r.backgroundColor,
          width := r.width, height := r.height,
          styleWidth := none, styleHeight := none }
      match r.container with
      | some _ => r.initPhase2 canvas env
      | none =>
          match env.body with
          | none => ([Effect.createCanvasEl], .error (.couldNotFindBody, r))
          | some b => Renderer.initPhase2 { r with container := some b } canvas env

/-- The host-environment inputs `addShaders` consumes: compile and link
outcomes and the locations the GL returns. -/
structure ShaderEnv where
  compileOk : Bool := true
  linkOk : Bool := true
  programId : ℕ := 0
  posLoc : ℤ := 0
  colorLoc : ℤ := 1

/-- `addShaders` (lines 427-485).  The precondition checks only `_canvas`
and `_gl`.  All field writes happen after every failure point, so an
exception leaves the renderer unchanged. -/
def Renderer.addShaders (r : Renderer) (fragmentShader vertexShader : Option String)
    (env : ShaderEnv) : List Effect × Except (XException × Renderer) Renderer :=
  match r.canvas, r.gl with
  | some _, some _ =>
      match fragmentShader, vertexShader with
      | some _, some _ =>
          let compileEffs := [Effect.createShaderEff, Effect.createShaderEff,
            Effect.compileShaderEff, Effect.compileShaderEff]
          if env.compileOk then
            if env.linkOk then
              (compileEffs ++
                [Effect.createProgramEff, Effect.linkProgramEff, Effect.useProgramEff,
                 Effect.enableVertexAttrib env.posLoc,
                 Effect.enableVertexAttrib env.colorLoc],
               .ok { r with
                       shaderProgram := some env.programId,
                       vertexPositionAttribute := some env.posLoc,
                       vertexColorAttribute := some env.colorLoc })
            else
              (compileEffs ++ [Effect.createProgramEff, Effect.linkProgramEff],
               .error (.couldNotCreateShaderProgram, r))
          else
            (compileEffs, .error (.shaderCompilationFailed, r))
      | _, _ => ([], .error (.couldNotAddShaders, r))
  | _, _ => ([], .error (.notInitialized, r))

/-- The `for` loop of lines 540-546: `colors.add(objectColor)` executed
`n` times on a fresh `X.colors` container. -/
def colorsLoop (n : ℕ) (c : XColor) : List XColor :=
  match n with
  | 0 => []
  | n + 1 => colorsLoop n c ++ [c]

/-- The color-resolution policy of `addObject`, lines 516-547: if
`object.color()` is null, accept the per-point colors exactly when their
count matches the point count; any remaining case synthesizes a fresh list
from the object color (the declared one, or the default white). -/
def resolveColors (o : XObject) : List XColor :=
  match o.color with
  | none =>
      let colorsValid := o.points.length == o.colors.length
      if colorsValid then o.colors else colorsLoop o.points.length defaultColor
  | some c => colorsLoop o.points.length c

/-- `addObject` (lines 487-590).  The result carries the new renderer
state, the returned identifier, and the caller's object as it stands after
the call (the body threads it through unmodified: the source only reads
it).  Errors carry the receiver state at the throw point — in particular
the identifier-collision throw happens after `++this._id`. -/
def Renderer.addObject (r : Renderer) (objectArg : Option XObject) :
    List Effect × Except (XException × Renderer) (Renderer × ℤ × XObject) :=
  match r.canvas, r.gl, r.camera with
  | some _, some gl, some _ =>
      match objectArg with
      | none => ([], .error (.illegalObject, r))
      | some object =>
          let colors := resolveColors object
          let vtx := gl.createBuffer
          let glVertexBuffer := vtx.1
          let vertexEffs := [Effect.createGLBuffer glVertexBuffer,
            Effect.bindGLBuffer glVertexBuffer,
            Effect.bufferData (flattenPoints object.points)]
          let vertexBuffer : XBuffer := ⟨glVertexBuffer, object.points.length, 3⟩
          let col := vtx.2.createBuffer
          let glColorBuffer := col.1
          let colorEffs := [Effect.createGLBuffer glColorBuffer,
            Effect.bindGLBuffer glColorBuffer,
            Effect.bufferData (flattenColors colors)]
          let colorBuffer : XBuffer := ⟨glColorBuffer, colors.length, 4⟩
          let newId := r.id + 1
          let rIncr := { r with id := newId, gl := some col.2 }
          match rIncr.objects.containsKey newId with
          | true =>
            (vertexEffs ++ colorEffs, .error (.couldNotGetUniqueId, rIncr))
          | false =>
            (vertexEffs ++ colorEffs,
             .ok ({ rIncr with
                      objects := rIncr.objects.set newId object,
                      vertexBuffers := rIncr.vertexBuffers.set newId vertexBuffer,
                      colorBuffers := rIncr.colorBuffers.set newId colorBuffer },
                  newId, object))
  | _, _, _ => ([], .error (.notInitialized, r))

/-- The body of the `while (true)` iteration for one key (lines 628-653):
skip the entry if the object is absent; otherwise bind and describe the
two buffers and draw.  A missing buffer handle makes the member access
throw a TypeError. -/
def Renderer.drawEntry (r : Renderer) (key : ℤ) : List Effect × Option JsError :=
  match r.objects.get key with
  | none => ([], none)
  | some _ =>
      match r.vertexBuffers.get key with
      | none => ([], some .typeError)
      | some vb =>
          let e1 := [Effect.bindGLBuffer vb.glBuffer,
            Effect.vertexAttribPointer r.vertexPositionAttribute vb.itemSize]
          match r.colorBuffers.get key with
          | none => (e1, some .typeError)
          | some cb =>
              (e1 ++ [Effect.bindGLBuffer cb.glBuffer,
                Effect.vertexAttribPointer r.vertexColorAttribute cb.itemSize,
                Effect.drawTriangleStrip vb.itemCount], none)

/-- The `while (true)` loop over the key iterator (lines 622-655): visits
keys in insertion order; when the iterator is exhausted `next()` throws
`goog.iter.StopIteration`, so the loop always terminates by an error. -/
def Renderer.drawLoop (r : Renderer) : List ℤ → List Effect × JsError
  | [] => ([], .stopIteration)
  | k :: rest =>
      match r.drawEntry k with
      | (effs, some e) => (effs, e)
      | (effs, none) =>
          let tail := r.drawLoop rest
          (effs ++ tail.1, tail.2)

/-- `render` (lines 592-668): precondition on `_canvas`/`_gl`/`_camera`
only; clear; fetch camera matrices; upload both uniforms (the shader
program is passed along even when absent); run the draw loop; catch the
loop's exception and absorb it exactly when it is `StopIteration`. -/
def Renderer.render (r : Renderer) : List Effect × Except (XException × Renderer) Unit :=
  match r.canvas, r.gl, r.camera with
  | some _, some _, some cam =>
      let preEffs := [Effect.clearBuffers,
        Effect.getUniformLoc r.shaderProgram "perspective",
        Effect.uniformMatrix4 "perspective" (flatten4 cam.getPerspective),
        Effect.getUniformLoc r.shaderProgram "view",
        Effect.uniformMatrix4 "view" (flatten4 cam.getView)]
      let loop := r.drawLoop r.objects.getKeys
      match loop.2 with
      | .stopIteration => (preEffs ++ loop.1, .ok ())
      | e => (preEffs ++ loop.1, .error (.rethrown e, r))
  | _, _, _ => ([], .error (.notInitialized, r))

/-- `Math.round`: round half toward positive infinity. -/
def jsRound (q : ℚ) : ℤ := ⌊q + 1 / 2⌋

/-- `X.matrixHelper`'s `multiplyByVector`, modelled from the spec: "apply
the composed transform to the input vector" — the vector is extended
homogeneously with 1 and multiplied; `getValueAt(0,0)` and
`getValueAt(0,1)` read the first two components of the result. -/
def applyToVector (M : Matrix4) (v : Vec3) : Fin 4 → ℚ :=
  fun i => M i 0 * v.x + M i 1 * v.y + M i 2 * v.z + M i 3

/-- `convertWorldToDisplayCoordinates` (lines 674-694), translated
statement by statement.  The receiver's camera is dereferenced without a
null check, so a missing camera yields no result (a TypeError in JS). -/
def Renderer.convertWorldToDisplayCoordinates (r : Renderer) (v : Vec3) :
    Option (ℤ × ℤ) :=
  match r.camera with
  | none => none
  | some cam =>
      let view := cam.getView
      let perspective := cam.getPerspective
      let viewPerspective := identity4
      let viewPerspective := matMul viewPerspective view
      let viewPerspective := matMul viewPerspective perspective
      let res := applyToVector viewPerspective v
      let x := (res 0 + 1) / 2
      let x := x * r.width
      let y := (1 - res 1) / 2
      let y := y * r.height
      some (jsRound x, jsRound y)

/-- The spec's own description of world-to-display conversion (spec
section 4.7), written from its words alone: compose the identity transform
with the view matrix and then the projection matrix, in that order; apply
the composed transform to the vector; map the normalized coordinates with
`x_px = round(((x+1)/2)*width)` and `y_px = round(((1-y)/2)*height)`. -/
def convertWorldToDisplaySpec (cam : Camera) (width height : ℚ) (v : Vec3) : ℤ × ℤ :=
  let composed := matMul (matMul identity4 cam.view) cam.perspective
  let res := applyToVector composed v
  (jsRound ((res 0 + 1) / 2 * width), jsRound ((1 - res 1) / 2 * height))

/-- The all-or-nothing invariant of spec section 3: `surface`, `context`
and `Camera` are either all null or all non-null. -/
def allOrNone (r : Renderer) : Prop :=
  r.canvas.isSome = r.gl.isSome ∧ r.canvas.isSome = r.camera.isSome

/-- The renderer states reachable through the public API, starting from
the constructor.  JS exceptions leave the receiver alive, so the state an
operation carries in its error outcome is reachable as well. -/
inductive Reachable : Renderer → Prop where
  | construct (w h : ℚ) : Reachable (Renderer.new w h)
  | widthStep {r : Renderer} (w : ℚ) : Reachable r → Reachable (r.setWidth w)
  | heightStep {r : Renderer} (h : ℚ) : Reachable r → Reachable (r.setHeight h)
  | bgStep {r : Renderer} (bg : String) : Reachable r → Reachable (r.setBackgroundColor bg)
  | setContainerOkStep {r r2 : Renderer} {c : Option ℕ} :
      Reachable r → r.setContainer c = .ok r2 → Reachable r2
  | setContainerErrStep {r r2 : Renderer} {c : Option ℕ} {e : XException} :
      Reachable r → r.setContainer c = .error (e, r2) → Reachable r2
  | getContainerOkStep {r r2 : Renderer} {b : Option ℕ} {c : ℕ} :
      Reachable r → r.getContainer b = .ok (c, r2) → Reachable r2
  | getContainerErrStep {r r2 : Renderer} {b : Option ℕ} {e : XException} :
      Reachable r → r.getContainer b = .error (e, r2) → Reachable r2
  | initOkStep {r r2 : Renderer} {env : InitEnv} {effs : List Effect} :
      Reachable r → r.init env = (effs, .ok r2) → Reachable r2
  | initErrStep {r r2 : Renderer} {env : InitEnv} {effs : List Effect} {e : XException} :
      Reachable r → r.init env = (effs, .error (e, r2)) → Reachable r2
  | addShadersOkStep {r r2 : Renderer} {fs vs : Option String} {env : ShaderEnv}
      {effs : List Effect} :
      Reachable r → r.addShaders fs vs env = (effs, .ok r2) → Reachable r2
  | addShadersErrStep {r r2 : Renderer} {fs vs : Option String} {env : ShaderEnv}
      {effs : List Effect} {e : XException} :
      Reachable r → r.addShaders fs vs env = (effs, .error (e, r2)) → Reachable r2
  | addObjectOkStep {r r2 : Renderer} {o : Option XObject} {i : ℤ} {oA : XObject}
      {effs : List Effect} :
      Reachable r → r.addObject o = (effs, .ok (r2, i, oA)) → Reachable r2
  | addObjectErrStep {r r2 : Renderer} {o : Option XObject} {effs : List Effect}
      {e : XException} :
      Reachable r → r.addObject o = (effs, .error (e, r2)) → Reachable r2
  | renderErrStep {r r2 : Renderer} {effs : List Effect} {e : XException} :
      Reachable r → r.render = (effs, .error (e, r2)) → Reachable r2

/-- Successive `addObject` calls folded over a list of (valid) scene
objects, collecting the returned identifiers in call order. -/
def Renderer.addObjects (r : Renderer) (objs : List XObject) :
    Except Unit (Renderer × List ℤ) :=
  match objs with
  | [] => .ok (r, [])
  | o :: rest =>
      match (r.addObject (some o)).2 with
      | .error _ => .error ()
      | .ok (r2, i, _) =>
          match r2.addObjects rest with
          | .error _ => .error ()
          | .ok (rF, ids) => .ok (rF, i :: ids)

/-- The exception carried by a failed operation, if any. -/
def resultException : Except (XException × Renderer) Unit → Option XException
  | .ok _ => none
  | .error (e, _) => some e

/-! ### Concrete fixtures for witness checks -/

/-- A concrete canvas as `init` would create it for a 100×100 renderer. -/
def sampleCanvas : Canvas := ⟨"#000000", 100, 100, none, none⟩

/-- A concrete GL context with no buffers allocated yet. -/
def sampleGL : GLContext := ⟨0⟩

/-- A concrete camera whose view and projection are both the identity. -/
def sampleCamera : Camera := ⟨identity4, identity4⟩

/-- A 100×100 renderer in the state `init` leaves it in. -/
def sampleInit : Renderer :=
  { width := 100, height := 100,
    canvas := some sampleCanvas, gl := some sampleGL, camera := some sampleCamera }

/-- A concrete non-white, non-default color. -/
def sampleColor : XColor := ⟨1 / 2, 1 / 4, 3 / 4, 1⟩

/-- A concrete point. -/
def samplePoint : Vec3 := ⟨1, 2, 3⟩

/-- An object with an explicit object-level color, 5 points and 2
per-point colors (case 1 of the policy). -/
def sampleObjWithColor : XObject :=
  ⟨some sampleColor, List.replicate 5 samplePoint, [⟨0, 0, 0, 0⟩, ⟨1, 0, 0, 1⟩]⟩

/-- An object with no object-level color and matching per-point colors
(case 2 of the policy). -/
def sampleObjMatched : XObject :=
  ⟨none, List.replicate 5 samplePoint, List.replicate 5 sampleColor⟩

/-- An object with no object-level color and 3 per-point colors for 5
points (case 3 of the policy). -/
def sampleObjMismatch : XObject :=
  ⟨none, List.replicate 5 samplePoint, List.replicate 3 sampleColor⟩

/-- The effect trace `addObject` issues once its preconditions hold:
create/bind/fill the vertex buffer, then create/bind/fill the color
buffer. -/
def addObjectEffs (glc : GLContext) (o : XObject) : List Effect :=
  [Effect.createGLBuffer glc.nextBufferId,
   Effect.bindGLBuffer glc.nextBufferId,
   Effect.bufferData (flattenPoints o.points),
   Effect.createGLBuffer (glc.nextBufferId + 1),
   Effect.bindGLBuffer (glc.nextBufferId + 1),
   Effect.bufferData (flattenColors (resolveColors o))]

/-- The renderer state at `addObject`'s identifier-collision throw: the
counter is already incremented and two buffers were created. -/
def addObjectStateIncr (r : Renderer) (glc : GLContext) : Renderer :=
  { r with id := r.id + 1, gl := some ⟨glc.nextBufferId + 2⟩ }

/-- The renderer state after a successful `addObject`. -/
def addObjectStateOk (r : Renderer) (glc : GLContext) (o : XObject) : Renderer :=
  { r with
      id := r.id + 1,
      gl := some ⟨glc.nextBufferId + 2⟩,
      objects := r.objects.set (r.id + 1) o,
      vertexBuffers := r.vertexBuffers.set (r.id + 1)
        ⟨glc.nextBufferId, o.points.length, 3⟩,
      colorBuffers := r.colorBuffers.set (r.id + 1)
        ⟨glc.nextBufferId + 1, (resolveColors o).length, 4⟩ }

/-- The effects `render` issues before entering the draw loop: one clear
and the two uniform uploads. -/
def renderPreEffs (r : Renderer) (cam : Camera) : List Effect :=
  [Effect.clearBuffers,
   Effect.getUniformLoc r.shaderProgram "perspective",
   Effect.uniformMatrix4 "perspective" (flatten4 cam.perspective),
   Effect.getUniformLoc r.shaderProgram "view",
   Effect.uniformMatrix4 "view" (flatten4 cam.view)]

/-! ### Helper lemmas -/

theorem addObject_eq (r : Renderer) (cv : Canvas) (glc : GLContext) (cam : Camera)
    (object : XObject)
    (hcv : r.canvas = some cv) (hgl : r.gl = some glc) (hcam : r.camera = some cam) :
    r.addObject (some object) =
      (addObjectEffs glc object,
       match r.objects.containsKey (r.id + 1) with
       | true => .error (.couldNotGetUniqueId, addObjectStateIncr r glc)
       | false => .ok (addObjectStateOk r glc object, r.id + 1, object)) := by
  unfold Renderer.addObject
  rw [hcv, hgl, hcam]
  cases hk : r.objects.containsKey (r.id + 1) <;>
    simp [hk, addObjectEffs, addObjectStateIncr, addObjectStateOk, GLContext.createBuffer] <;>
    exact ⟨hcv.symm, hcam.symm⟩

theorem addObject_notInit (r : Renderer) (o : Option XObject)
    (h : r.canvas = none ∨ r.gl = none ∨ r.camera = none) :
    r.addObject o = ([], .error (.notInitialized, r)) := by
  unfold Renderer.addObject
  cases hcv : r.canvas <;> cases hgl : r.gl <;> cases hcam : r.camera <;> simp_all

theorem render_eq (r : Renderer) (cv : Canvas) (glc : GLContext) (cam : Camera)
    (hcv : r.canvas = some cv) (hgl : r.gl = some glc) (hcam : r.camera = some cam) :
    r.render =
      (match (r.drawLoop r.objects.getKeys).2 with
       | .stopIteration =>
          (renderPreEffs r cam ++ (r.drawLoop r.objects.getKeys).1, .ok ())
       | e =>
          (renderPreEffs r cam ++ (r.drawLoop r.objects.getKeys).1,
           .error (.rethrown e, r))) := by
  unfold Renderer.render
  rw [hcv, hgl, hcam]
  rfl

theorem render_notInit (r : Renderer)
    (h : r.canvas = none ∨ r.gl = none ∨ r.camera = none) :
    r.render = ([], .error (.notInitialized, r)) := by
  unfold Renderer.render
  cases hcv : r.canvas <;> cases hgl : r.gl <;> cases hcam : r.camera <;> simp_all

theorem colorsLoop_eq_replicate (n : ℕ) (c : XColor) :
    colorsLoop n c = List.replicate n c := by
  induction n with
  | zero => rfl
  | succ n ih => rw [colorsLoop, ih, ← List.replicate_succ']

/-- The three-way policy of lines 516-547, restated the way the spec
words it. -/
theorem resolveColors_eq_policy (o : XObject) :
    resolveColors o =
      match o.color with
      | some c => List.replicate o.points.length c
      | none =>
          if o.colors.length = o.points.length then o.colors
          else List.replicate o.points.length defaultColor := by
  cases hc : o.color with
  | some c => simp [resolveColors, hc, colorsLoop_eq_replicate]
  | none =>
      simp only [resolveColors, hc, colorsLoop_eq_replicate, beq_iff_eq]
      by_cases hlen : o.points.length = o.colors.length
      · simp [hlen]
      · rw [if_neg hlen, if_neg (fun h => hlen h.symm)]

theorem resolveColors_length (o : XObject) :
    (resolveColors o).length = o.points.length := by
  rw [resolveColors_eq_policy]
  cases hc : o.color with
  | some c => simp
  | none =>
      by_cases hlen : o.colors.length = o.points.length
      · simp [hlen]
      · simp [hlen]

theorem GMap.set_of_not_contains (m : GMap α) (k : ℤ) (v : α)
    (h : m.containsKey k = false) : (m.set k v).entries = m.entries ++ [(k, v)] := by
  unfold GMap.set
  rw [h]
  simp

theorem find?_map_replace (l : List (ℤ × α)) (k : ℤ) (v : α)
    (h : l.any (fun e => e.1 == k) = true) :
    (l.map fun e => if e.1 == k then (k, v) else e).find? (fun e => e.1 == k) =
      some (k, v) := by
  induction l with
  | nil => simp at h
  | cons e rest ih =>
      by_cases he : (e.1 == k) = true
      · simp [he, List.find?]
      · have he' : (e.1 == k) = false := by simpa using he
        have hrest : rest.any (fun e => e.1 == k) = true := by
          simpa [he'] using h
        rw [List.map_cons, if_neg (by simp [he']),
          List.find?_cons_of_neg _ (by simp [he'])]
        exact ih hrest

theorem GMap.get_set_self (m : GMap α) (k : ℤ) (v : α) :
    (m.set k v).get k = some v := by
  unfold GMap.set
  by_cases h : m.containsKey k = true
  · rw [if_pos h]
    unfold GMap.get
    rw [find?_map_replace m.entries k v (by simpa [GMap.containsKey] using h)]
    rfl
  · rw [if_neg h]
    unfold GMap.get
    have hfalse : m.entries.any (fun e => e.1 == k) = false := by
      have := Bool.not_eq_true (m.containsKey k) ▸ h
      simpa [GMap.containsKey] using this
    have hnone : m.entries.find? (fun e => e.1 == k) = none := by
      rw [List.find?_eq_none]
      exact List.any_eq_false.mp hfalse
    rw [List.find?_append, hnone]
    simp [List.find?]

theorem setWidth_fields (r : Renderer) (w : ℚ) :
    (r.setWidth w).canvas.isSome = r.canvas.isSome ∧ (r.setWidth w).gl = r.gl ∧
      (r.setWidth w).camera = r.camera := by
  cases hc : r.canvas <;> simp [Renderer.setWidth, hc]

theorem setHeight_fields (r : Renderer) (h : ℚ) :
    (r.setHeight h).canvas.isSome = r.canvas.isSome ∧ (r.setHeight h).gl = r.gl ∧
      (r.setHeight h).camera = r.camera := by
  cases hc : r.canvas <;> simp [Renderer.setHeight, hc]

theorem setBackgroundColor_fields (r : Renderer) (bg : String) :
    (r.setBackgroundColor bg).canvas.isSome = r.canvas.isSome ∧
      (r.setBackgroundColor bg).gl = r.gl ∧
      (r.setBackgroundColor bg).camera = r.camera := by
  cases hc : r.canvas <;> simp [Renderer.setBackgroundColor, hc]

theorem setContainer_ok_fields {r r2 : Renderer} {c : Option ℕ}
    (h : r.setContainer c = .ok r2) :
    r2.canvas = r.canvas ∧ r2.gl = r.gl ∧ r2.camera = r.camera := by
  cases c with
  | none => simp [Renderer.setContainer] at h
  | some c' =>
      simp only [Renderer.setContainer, Except.ok.injEq] at h
      subst h
      exact ⟨rfl, rfl, rfl⟩

theorem setContainer_err_state {r r2 : Renderer} {c : Option ℕ} {e : XException}
    (h : r.setContainer c = .error (e, r2)) : r2 = r := by
  cases c with
  | none =>
      simp only [Renderer.setContainer, Except.error.injEq, Prod.mk.injEq] at h
      exact h.2.symm
  | some c' => simp [Renderer.setContainer] at h

theorem getContainer_ok_fields {r r2 : Renderer} {b : Option ℕ} {c : ℕ}
    (h : r.getContainer b = .ok (c, r2)) :
    r2.canvas = r.canvas ∧ r2.gl = r.gl ∧ r2.camera = r.camera := by
  unfold Renderer.getContainer at h
  repeat' split at h
  all_goals simp_all
  all_goals (obtain ⟨-, rfl⟩ := h; exact ⟨rfl, rfl, rfl⟩)

theorem getContainer_err_state {r r2 : Renderer} {b : Option ℕ} {e : XException}
    (h : r.getContainer b = .error (e, r2)) : r2 = r := by
  unfold Renderer.getContainer at h
  repeat' split at h
  all_goals simp_all

theorem init_err_fields {r r2 : Renderer} {env : InitEnv} {effs : List Effect}
    {e : XException} (h : r.init env = (effs, .error (e, r2))) :
    r2.canvas = r.canvas ∧ r2.gl = r.gl ∧ r2.camera = r.camera := by
  unfold Renderer.init Renderer.initPhase2 at h
  repeat' split at h
  all_goals simp at h
  all_goals (obtain ⟨-, -, rfl⟩ := h; simp_all)

theorem init_ok_fields {r r2 : Renderer} {env : InitEnv} {effs : List Effect}
    (h : r.init env = (effs, .ok r2)) :
    (r2 = r ∧ r.canvas.isSome = true) ∨
      (r2.canvas.isSome = true ∧ r2.gl.isSome = true ∧ r2.camera.isSome = true) := by
  unfold Renderer.init Renderer.initPhase2 at h
  repeat' split at h
  all_goals simp_all
  all_goals (obtain ⟨-, rfl⟩ := h; simp)

theorem addShaders_ok_fields {r r2 : Renderer} {fs vs : Option String}
    {env : ShaderEnv} {effs : List Effect}
    (h : r.addShaders fs vs env = (effs, .ok r2)) :
    r2.canvas = r.canvas ∧ r2.gl = r.gl ∧ r2.camera = r.camera := by
  unfold Renderer.addShaders at h
  repeat' split at h
  all_goals simp_all
  all_goals (obtain ⟨-, rfl⟩ := h; exact ⟨rfl, rfl, rfl⟩)

theorem addShaders_err_state {r r2 : Renderer} {fs vs : Option String}
    {env : ShaderEnv} {effs : List Effect} {e : XException}
    (h : r.addShaders fs vs env = (effs, .error (e, r2))) : r2 = r := by
  unfold Renderer.addShaders at h
  repeat' split at h
  all_goals simp_all

theorem addObject_ok_fields {r r2 : Renderer} {o : Option XObject} {i : ℤ}
    {oA : XObject} {effs : List Effect}
    (h : r.addObject o = (effs, .ok (r2, i, oA))) :
    r2.canvas.isSome = true ∧ r2.gl.isSome = true ∧ r2.camera.isSome = true := by
  cases hcv : r.canvas with
  | none => rw [addObject_notInit r o (Or.inl hcv)] at h; simp at h
  | some cv =>
  cases hgl : r.gl with
  | none => rw [addObject_notInit r o (Or.inr (Or.inl hgl))] at h; simp at h
  | some glc =>
  cases hcam : r.camera with
  | none => rw [addObject_notInit r o (Or.inr (Or.inr hcam))] at h; simp at h
  | some cam =>
  cases o with
  | none =>
      unfold Renderer.addObject at h
      rw [hcv, hgl, hcam] at h
      simp at h
  | some object =>
      rw [addObject_eq r cv glc cam object hcv hgl hcam] at h
      cases hk : r.objects.containsKey (r.id + 1) <;> rw [hk] at h <;> simp at h
      obtain ⟨-, rfl, -, -⟩ := h
      simp [addObjectStateOk, hcv, hcam]

theorem addObject_err_fields {r r2 : Renderer} {o : Option XObject}
    {effs : List Effect} {e : XException}
    (h : r.addObject o = (effs, .error (e, r2))) :
    r2.canvas = r.canvas ∧ r2.gl.isSome = r.gl.isSome ∧ r2.camera = r.camera := by
  cases hcv : r.canvas with
  | none =>
      rw [addObject_notInit r o (Or.inl hcv)] at h
      simp at h
      obtain ⟨-, -, rfl⟩ := h
      simp_all
  | some cv =>
  cases hgl : r.gl with
  | none =>
      rw [addObject_notInit r o (Or.inr (Or.inl hgl))] at h
      simp at h
      obtain ⟨-, -, rfl⟩ := h
      simp_all
  | some glc =>
  cases hcam : r.camera with
  | none =>
      rw [addObject_notInit r o (Or.inr (Or.inr hcam))] at h
      simp at h
      obtain ⟨-, -, rfl⟩ := h
      simp_all
  | some cam =>
  cases o with
  | none =>
      unfold Renderer.addObject at h
      rw [hcv, hgl, hcam] at h
      simp at h
      obtain ⟨-, -, rfl⟩ := h
      simp_all
  | some object =>
      rw [addObject_eq r cv glc cam object hcv hgl hcam] at h
      cases hk : r.objects.containsKey (r.id + 1) <;> rw [hk] at h <;> simp at h
      obtain ⟨-, -, rfl⟩ := h
      simp_all [addObjectStateIncr]

theorem render_err_state {r r2 : Renderer} {effs : List Effect} {e : XException}
    (h : r.render = (effs, .error (e, r2))) : r2 = r := by
  cases hcv : r.canvas with
  | none =>
      rw [render_notInit r (Or.inl hcv)] at h
      simp at h
      exact h.2.2.symm
  | some cv =>
  cases hgl : r.gl with
  | none =>
      rw [render_notInit r (Or.inr (Or.inl hgl))] at h
      simp at h
      exact h.2.2.symm
  | some glc =>
  cases hcam : r.camera with
  | none =>
      rw [render_notInit r (Or.inr (Or.inr hcam))] at h
      simp at h
      exact h.2.2.symm
  | some cam =>
      rw [render_eq r cv glc cam hcv hgl hcam] at h
      cases hloop : (r.drawLoop r.objects.getKeys).2 <;> rw [hloop] at h <;> simp at h
      exact h.2.2.symm

/-- Every reachable state satisfies the all-or-nothing invariant. -/
theorem reachable_allOrNone : ∀ r : Renderer, Reachable r → allOrNone r := by
  intro r h
  induction h with
  | construct w hh => exact ⟨rfl, rfl⟩
  | widthStep w _ ih =>
      obtain ⟨h1, h2, h3⟩ := setWidth_fields _ w
      exact ⟨h1.trans (ih.1.trans (congrArg Option.isSome h2).symm),
        h1.trans (ih.2.trans (congrArg Option.isSome h3).symm)⟩
  | heightStep hh _ ih =>
      obtain ⟨h1, h2, h3⟩ := setHeight_fields _ hh
      exact ⟨h1.trans (ih.1.trans (congrArg Option.isSome h2).symm),
        h1.trans (ih.2.trans (congrArg Option.isSome h3).symm)⟩
  | bgStep bg _ ih =>
      obtain ⟨h1, h2, h3⟩ := setBackgroundColor_fields _ bg
      exact ⟨h1.trans (ih.1.trans (congrArg Option.isSome h2).symm),
        h1.trans (ih.2.trans (congrArg Option.isSome h3).symm)⟩
  | setContainerOkStep _ hstep ih =>
      obtain ⟨h1, h2, h3⟩ := setContainer_ok_fields hstep
      exact ⟨by rw [h1, h2]; exact ih.1, by rw [h1, h3]; exact ih.2⟩
  | setContainerErrStep _ hstep ih => rw [setContainer_err_state hstep]; exact ih
  | getContainerOkStep _ hstep ih =>
      obtain ⟨h1, h2, h3⟩ := getContainer_ok_fields hstep
      exact ⟨by rw [h1, h2]; exact ih.1, by rw [h1, h3]; exact ih.2⟩
  | getContainerErrStep _ hstep ih => rw [getContainer_err_state hstep]; exact ih
  | initOkStep _ hstep ih =>
      rcases init_ok_fields hstep with ⟨rfl, -⟩ | ⟨h1, h2, h3⟩
      · exact ih
      · exact ⟨h1.trans h2.symm, h1.trans h3.symm⟩
  | initErrStep _ hstep ih =>
      obtain ⟨h1, h2, h3⟩ := init_err_fields hstep
      exact ⟨by rw [h1, h2]; exact ih.1, by rw [h1, h3]; exact ih.2⟩
  | addShadersOkStep _ hstep ih =>
      obtain ⟨h1, h2, h3⟩ := addShaders_ok_fields hstep
      exact ⟨by rw [h1, h2]; exact ih.1, by rw [h1, h3]; exact ih.2⟩
  | addShadersErrStep _ hstep ih => rw [addShaders_err_state hstep]; exact ih
  | addObjectOkStep _ hstep ih =>
      obtain ⟨h1, h2, h3⟩ := addObject_ok_fields hstep
      exact ⟨h1.trans h2.symm, h1.trans h3.symm⟩
  | addObjectErrStep _ hstep ih =>
      obtain ⟨h1, h2, h3⟩ := addObject_err_fields hstep
      exact ⟨by rw [h1, h2]; exact ih.1, by rw [h1, h3]; exact ih.2⟩
  | renderErrStep _ hstep ih => rw [render_err_state hstep]; exact ih

theorem addObjects_ids (objs : List XObject) :
    ∀ (r : Renderer) (cv : Canvas) (glc : GLContext) (cam : Camera),
      r.canvas = some cv → r.gl = some glc → r.camera = some cam →
      (∀ p ∈ r.objects.entries, p.1 ≤ r.id) →
      (r.addObjects objs).map Prod.snd =
        .ok ((List.range objs.length).map fun n : ℕ => r.id + 1 + (n : ℤ)) := by
  induction objs with
  | nil =>
      intro r cv glc cam hcv hgl hcam hb
      simp [Renderer.addObjects, Except.map]
  | cons o rest ih =>
      intro r cv glc cam hcv hgl hcam hb
      have hk : r.objects.containsKey (r.id + 1) = false := by
        unfold GMap.containsKey
        rw [List.any_eq_false]
        intro p hp
        simp only [beq_iff_eq]
        intro hEq
        have hle := hb p hp
        omega
      have hstep := addObject_eq r cv glc cam o hcv hgl hcam
      rw [hk] at hstep
      have hb2 : ∀ p ∈ (addObjectStateOk r glc o).objects.entries,
          p.1 ≤ (addObjectStateOk r glc o).id := by
        simp only [addObjectStateOk]
        rw [GMap.set_of_not_contains _ _ _ hk]
        intro p hp
        rcases List.mem_append.mp hp with hp | hp
        · have := hb p hp
          omega
        · simp only [List.mem_singleton] at hp
          rw [hp]
      have hrec := ih (addObjectStateOk r glc o) cv ⟨glc.nextBufferId + 2⟩ cam
        (by simp [addObjectStateOk, hcv]) (by simp [addObjectStateOk])
        (by simp [addObjectStateOk, hcam]) hb2
      have hlist : (List.range (rest.length + 1)).map (fun n : ℕ => r.id + 1 + (n : ℤ)) =
          (r.id + 1) :: (List.range rest.length).map
            (fun n : ℕ => r.id + 1 + 1 + (n : ℤ)) := by
        rw [List.range_succ_eq_map, List.map_cons, List.map_map]
        refine congrArg₂ List.cons (by simp) ?_
        refine List.map_congr_left ?_
        intro n hn
        simp only [Function.comp]
        push_cast
        ring
      cases hrest : (addObjectStateOk r glc o).addObjects rest with
      | error u =>
          rw [hrest] at hrec
          simp [Except.map] at hrec
      | ok pr =>
          rw [hrest] at hrec
          simp only [Except.map] at hrec
          rw [Except.ok.injEq] at hrec
          simp only [Renderer.addObjects, hstep, hrest, Except.map, List.length_cons]
          rw [hlist, hrec]
          rfl

/-- C1: for every scene object passed to `addObject` on an initialized
renderer, the colors uploaded to the color buffer follow the three-way
policy: an explicit object-level color is replicated once per point; else
per-point colors are used verbatim exactly when their count equals the
point count; else the default opaque white is replicated once per
point. -/
theorem spec_C1_color_policy (r : Renderer) (cv : Canvas) (glc : GLContext)
    (cam : Camera) (o : XObject)
    (hcv : r.canvas = some cv) (hgl : r.gl = some glc) (hcam : r.camera = some cam) :
    (r.addObject (some o)).1 =
      [Effect.createGLBuffer glc.nextBufferId,
       Effect.bindGLBuffer glc.nextBufferId,
       Effect.bufferData (flattenPoints o.points),
       Effect.createGLBuffer (glc.nextBufferId + 1),
       Effect.bindGLBuffer (glc.nextBufferId + 1),
       Effect.bufferData (flattenColors
         (match o.color with
          | some c => List.replicate o.points.length c
          | none =>
              if o.colors.length = o.points.length then o.colors
              else List.replicate o.points.length defaultColor))] := by
  rw [addObject_eq r cv glc cam o hcv hgl hcam]
  simp only [addObjectEffs, resolveColors_eq_policy]

theorem spec_C1_color_policy_witness :
    sampleInit.canvas = some sampleCanvas ∧ sampleInit.gl = some sampleGL ∧
    sampleInit.camera = some sampleCamera ∧
    (sampleInit.addObject (some sampleObjWithColor)).1 =
      [Effect.createGLBuffer 0, Effect.bindGLBuffer 0,
       Effect.bufferData (flattenPoints sampleObjWithColor.points),
       Effect.createGLBuffer 1, Effect.bindGLBuffer 1,
       Effect.bufferData (flattenColors (List.replicate 5 sampleColor))] :=
  ⟨rfl, rfl, rfl, by
    have h := spec_C1_color_policy sampleInit sampleCanvas sampleGL sampleCamera
      sampleObjWithColor rfl rfl rfl
    exact h⟩

/-- C2: `convertWorldToDisplayCoordinates` equals the spec's description:
compose the identity transform with the camera view matrix and then the
projection matrix in that order, apply the composed transform, and map the
normalized coordinates to pixels by rounding ((x+1)/2)*width and
((1-y)/2)*height. -/
theorem spec_C2_world_to_display (r : Renderer) (cam : Camera) (v : Vec3)
    (h : r.camera = some cam) :
    r.convertWorldToDisplayCoordinates v =
      some (convertWorldToDisplaySpec cam r.width r.height v) := by
  unfold Renderer.convertWorldToDisplayCoordinates convertWorldToDisplaySpec
  rw [h]
  rfl

theorem spec_C2_world_to_display_witness :
    sampleInit.camera = some sampleCamera ∧
    sampleInit.convertWorldToDisplayCoordinates ⟨0, 0, 0⟩ =
      some (convertWorldToDisplaySpec sampleCamera 100 100 ⟨0, 0, 0⟩) :=
  ⟨rfl, spec_C2_world_to_display sampleInit sampleCamera ⟨0, 0, 0⟩ rfl⟩

/-- C4: `init` is idempotent — on a renderer whose canvas exists, a
further call returns immediately with no error, the identical state, and
an empty effect trace. -/
theorem spec_C4_init_idempotent (r : Renderer) (env : InitEnv)
    (h : r.canvas.isSome = true) :
    r.init env = ([], .ok r) := by
  unfold Renderer.init
  cases hc : r.canvas with
  | none => rw [hc] at h; simp at h
  | some cv => rfl

theorem spec_C4_init_idempotent_witness :
    sampleInit.canvas.isSome = true ∧ sampleInit.init {} = ([], .ok sampleInit) :=
  ⟨rfl, spec_C4_init_idempotent sampleInit {} rfl⟩

/-- C9: calling `addObject` or `render` on a renderer whose canvas,
context or camera is missing fails with the not-initialized exception,
issues no GPU effect, and carries the receiver state unchanged (so the
registry is untouched). -/
theorem spec_C9_not_initialized (r : Renderer) (o : Option XObject)
    (h : r.canvas = none ∨ r.gl = none ∨ r.camera = none) :
    r.addObject o = ([], .error (.notInitialized, r)) ∧
    r.render = ([], .error (.notInitialized, r)) :=
  ⟨addObject_notInit r o h, render_notInit r h⟩

theorem spec_C9_not_initialized_witness :
    (Renderer.new 100 100).canvas = none ∧
    (Renderer.new 100 100).addObject (some sampleObjMatched) =
      ([], .error (.notInitialized, Renderer.new 100 100)) ∧
    (Renderer.new 100 100).render =
      ([], .error (.notInitialized, Renderer.new 100 100)) :=
  ⟨rfl,
    (spec_C9_not_initialized (Renderer.new 100 100) (some sampleObjMatched)
      (Or.inl rfl)).1,
    (spec_C9_not_initialized (Renderer.new 100 100) (some sampleObjMatched)
      (Or.inl rfl)).2⟩

/-- C7: `render` on an initialized renderer with an empty registry issues
exactly one clear and one upload of each of the two matrix uniforms,
issues zero draw calls, and returns normally — the iterator's
end-of-iteration signal is absorbed, not surfaced as an error. -/
theorem spec_C7_render_empty (r : Renderer) (cv : Canvas) (glc : GLContext)
    (cam : Camera)
    (hcv : r.canvas = some cv) (hgl : r.gl = some glc) (hcam : r.camera = some cam)
    (hempty : r.objects.entries = []) :
    r.render =
      ([Effect.clearBuffers,
        Effect.getUniformLoc r.shaderProgram "perspective",
        Effect.uniformMatrix4 "perspective" (flatten4 cam.perspective),
        Effect.getUniformLoc r.shaderProgram "view",
        Effect.uniformMatrix4 "view" (flatten4 cam.view)], .ok ()) := by
  rw [render_eq r cv glc cam hcv hgl hcam]
  have hkeys : r.objects.getKeys = [] := by simp [GMap.getKeys, hempty]
  rw [hkeys]
  simp [Renderer.drawLoop, renderPreEffs]

theorem spec_C7_render_empty_witness :
    sampleInit.canvas = some sampleCanvas ∧ sampleInit.objects.entries = [] ∧
    sampleInit.render =
      ([Effect.clearBuffers,
        Effect.getUniformLoc none "perspective",
        Effect.uniformMatrix4 "perspective" (flatten4 sampleCamera.perspective),
        Effect.getUniformLoc none "view",
        Effect.uniformMatrix4 "view" (flatten4 sampleCamera.view)], .ok ()) :=
  ⟨rfl, rfl,
    spec_C7_render_empty sampleInit sampleCanvas sampleGL sampleCamera rfl rfl rfl rfl⟩

/-- C10: `render`'s precondition covers only canvas, context and camera —
never the shader program.  On an initialized renderer that never saw
`addShaders`, `render` does not fail with the not-initialized exception
and proceeds to look up both uniform locations on the absent program. -/
theorem spec_C10_render_no_shader_guard (r : Renderer) (cv : Canvas)
    (glc : GLContext) (cam : Camera)
    (hcv : r.canvas = some cv) (hgl : r.gl = some glc) (hcam : r.camera = some cam)
    (hsp : r.shaderProgram = none) :
    resultException (r.render).2 ≠ some XException.notInitialized ∧
    Effect.getUniformLoc none "perspective" ∈ (r.render).1 ∧
    Effect.getUniformLoc none "view" ∈ (r.render).1 := by
  rw [render_eq r cv glc cam hcv hgl hcam]
  cases hloop : (r.drawLoop r.objects.getKeys).2 <;>
    simp [hloop, renderPreEffs, hsp, resultException]

theorem spec_C10_render_no_shader_guard_witness :
    sampleInit.shaderProgram = none ∧
    resultException (sampleInit.render).2 ≠ some XException.notInitialized ∧
    Effect.getUniformLoc none "perspective" ∈ (sampleInit.render).1 ∧
    Effect.getUniformLoc none "view" ∈ (sampleInit.render).1 :=
  ⟨rfl,
    spec_C10_render_no_shader_guard sampleInit sampleCanvas sampleGL sampleCamera
      rfl rfl rfl rfl⟩

/-- C8: after a successful `addObject`, the registry entry at the new
identifier has a vertex handle whose element count equals the object's
point count with 3 components per element, and a color handle whose
element count equals that same point count with 4 components per
element. -/
theorem spec_C8_buffer_counts (r : Renderer) (glc : GLContext) (o : XObject)
    (effs : List Effect) (r2 : Renderer) (i : ℤ) (oA : XObject)
    (hgl : r.gl = some glc)
    (h : r.addObject (some o) = (effs, .ok (r2, i, oA))) :
    r2.vertexBuffers.get i = some ⟨glc.nextBufferId, o.points.length, 3⟩ ∧
    r2.colorBuffers.get i = some ⟨glc.nextBufferId + 1, o.points.length, 4⟩ := by
  cases hcv : r.canvas with
  | none => rw [addObject_notInit r _ (Or.inl hcv)] at h; simp at h
  | some cv =>
  cases hcam : r.camera with
  | none => rw [addObject_notInit r _ (Or.inr (Or.inr hcam))] at h; simp at h
  | some cam =>
  rw [addObject_eq r cv glc cam o hcv hgl hcam] at h
  cases hk : r.objects.containsKey (r.id + 1) <;> rw [hk] at h <;> simp at h
  obtain ⟨-, rfl, rfl, -⟩ := h
  constructor
  · simpa [addObjectStateOk] using
      GMap.get_set_self r.vertexBuffers (r.id + 1)
        (⟨glc.nextBufferId, o.points.length, 3⟩ : XBuffer)
  · have hcb := GMap.get_set_self r.colorBuffers (r.id + 1)
      (⟨glc.nextBufferId + 1, (resolveColors o).length, 4⟩ : XBuffer)
    simp only [addObjectStateOk]
    rw [← resolveColors_length o]
    exact hcb

theorem spec_C8_buffer_counts_witness :
    sampleInit.gl = some sampleGL ∧
    sampleInit.addObject (some sampleObjMatched) =
      (addObjectEffs sampleGL sampleObjMatched,
        .ok (addObjectStateOk sampleInit sampleGL sampleObjMatched, 0,
          sampleObjMatched)) ∧
    (addObjectStateOk sampleInit sampleGL sampleObjMatched).vertexBuffers.get 0 =
      some ⟨0, 5, 3⟩ ∧
    (addObjectStateOk sampleInit sampleGL sampleObjMatched).colorBuffers.get 0 =
      some ⟨1, 5, 4⟩ :=
  ⟨rfl, rfl, by
    have h := spec_C8_buffer_counts sampleInit sampleGL sampleObjMatched
      (addObjectEffs sampleGL sampleObjMatched)
      (addObjectStateOk sampleInit sampleGL sampleObjMatched) 0 sampleObjMatched
      rfl rfl
    exact ⟨h.1, h.2⟩⟩

/-- C6: `addObject` never mutates the caller's object — its object-level
color, point container and per-point color container are identical after
the call, and the registry stores that same object; in the two synthesized
cases the uploaded color list is the loop-built, renderer-owned container
rather than the caller's. -/
theorem spec_C6_no_mutation (r : Renderer) (o : XObject) (effs : List Effect)
    (r2 : Renderer) (i : ℤ) (oA : XObject)
    (h : r.addObject (some o) = (effs, .ok (r2, i, oA))) :
    oA.color = o.color ∧ oA.points = o.points ∧ oA.colors = o.colors ∧
    r2.objects.get i = some o ∧
    Effect.bufferData (flattenColors (resolveColors o)) ∈ effs ∧
    (¬(o.color = none ∧ o.colors.length = o.points.length) →
      resolveColors o = colorsLoop o.points.length (o.color.getD defaultColor)) := by
  cases hcv : r.canvas with
  | none => rw [addObject_notInit r _ (Or.inl hcv)] at h; simp at h
  | some cv =>
  cases hgl : r.gl with
  | none => rw [addObject_notInit r _ (Or.inr (Or.inl hgl))] at h; simp at h
  | some glc =>
  cases hcam : r.camera with
  | none => rw [addObject_notInit r _ (Or.inr (Or.inr hcam))] at h; simp at h
  | some cam =>
  rw [addObject_eq r cv glc cam o hcv hgl hcam] at h
  cases hk : r.objects.containsKey (r.id + 1) <;> rw [hk] at h <;> simp at h
  obtain ⟨rfl, rfl, rfl, rfl⟩ := h
  refine ⟨rfl, rfl, rfl, ?_, ?_, ?_⟩
  · simpa [addObjectStateOk] using GMap.get_set_self r.objects (r.id + 1) o
  · simp [addObjectEffs]
  · intro hcase
    cases hc : o.color with
    | some c => simp [resolveColors, hc]
    | none =>
        have hne : o.points.length ≠ o.colors.length := by
          intro hEq
          exact hcase ⟨hc, hEq.symm⟩
        simp [resolveColors, hc, hne]

theorem spec_C6_no_mutation_witness :
    sampleInit.addObject (some sampleObjMismatch) =
      (addObjectEffs sampleGL sampleObjMismatch,
        .ok (addObjectStateOk sampleInit sampleGL sampleObjMismatch, 0,
          sampleObjMismatch)) ∧
    resolveColors sampleObjMismatch = colorsLoop 5 defaultColor :=
  ⟨rfl,
    (spec_C6_no_mutation sampleInit sampleObjMismatch
      (addObjectEffs sampleGL sampleObjMismatch)
      (addObjectStateOk sampleInit sampleGL sampleObjMismatch) 0 sampleObjMismatch
      rfl).2.2.2.2.2 (by decide)⟩

/-- C5: on a freshly initialized renderer (counter at -1, empty registry),
successive successful `addObject` calls return the strictly increasing
consecutive identifiers 0, 1, 2, …: the n-th call returns n-1. -/
theorem spec_C5_ids_consecutive (r : Renderer) (objs : List XObject)
    (cv : Canvas) (glc : GLContext) (cam : Camera)
    (hcv : r.canvas = some cv) (hgl : r.gl = some glc) (hcam : r.camera = some cam)
    (hid : r.id = -1) (hempty : r.objects.entries = []) :
    (r.addObjects objs).map Prod.snd =
      .ok ((List.range objs.length).map fun n : ℕ => (n : ℤ)) := by
  have h := addObjects_ids objs r cv glc cam hcv hgl hcam
    (by rw [hempty]; intro p hp; simp at hp)
  rw [hid] at h
  simpa using h

theorem spec_C5_ids_consecutive_witness :
    sampleInit.canvas = some sampleCanvas ∧ sampleInit.id = -1 ∧
    sampleInit.objects.entries = [] ∧
    (sampleInit.addObjects
        [sampleObjWithColor, sampleObjMatched, sampleObjMismatch]).map Prod.snd =
      .ok ((List.range 3).map fun n : ℕ => (n : ℤ)) :=
  ⟨rfl, rfl, rfl,
    spec_C5_ids_consecutive sampleInit
      [sampleObjWithColor, sampleObjMatched, sampleObjMismatch]
      sampleCanvas sampleGL sampleCamera rfl rfl rfl rfl rfl⟩

/-- C3: the surface, context and camera are all null or all non-null in
every reachable state — a fresh renderer has all three null, a successful
`init` from the uninitialized state publishes all three, and a failed
`init` leaves all three exactly as they were. -/
theorem spec_C3_atomic_init :
    (∀ w h : ℚ, (Renderer.new w h).canvas = none ∧ (Renderer.new w h).gl = none ∧
      (Renderer.new w h).camera = none) ∧
    (∀ (r r2 : Renderer) (env : InitEnv) (effs : List Effect),
      r.init env = (effs, .ok r2) → r.canvas = none →
      r2.canvas.isSome = true ∧ r2.gl.isSome = true ∧ r2.camera.isSome = true) ∧
    (∀ (r r2 : Renderer) (env : InitEnv) (effs : List Effect) (e : XException),
      r.init env = (effs, .error (e, r2)) →
      r2.canvas = r.canvas ∧ r2.gl = r.gl ∧ r2.camera = r.camera) ∧
    (∀ r : Renderer, Reachable r → allOrNone r) := by
  refine ⟨fun w h => ⟨rfl, rfl, rfl⟩, ?_, ?_, reachable_allOrNone⟩
  · intro r r2 env effs hok hnone
    rcases init_ok_fields hok with ⟨rfl, hs⟩ | hs
    · rw [hnone] at hs
      simp at hs
    · exact hs
  · intro r r2 env effs e herr
    exact init_err_fields herr

theorem spec_C3_atomic_init_witness : allOrNone (Renderer.new 1 1) :=
  spec_C3_atomic_init.2.2.2 (Renderer.new 1 1) (Reachable.construct 1 1)

end XRenderer
